import Mathlib

/-!
# Verification of the aiortc worker dispatch loop

A shallow embedding of `src/worker/worker.py`: the JSON request/notification
dispatcher that serves a parent process over an IPC channel, keeping two
registries (handlers and players) and replying to every request exactly once.

External collaborators (the aiortc `Handler` objects, `MediaPlayer`, the
`Channel` transport) are modelled by an `Env` of oracles: the worker's own
control flow and registry mutations are translated from the source, while the
behaviour of a delegated capability call is an arbitrary function supplied by
the environment.
-/

/-- A JSON scalar value carried in a message's `data` payload.  Nested
objects/arrays inside `data` are only ever forwarded opaquely to external
collaborators by the worker, so scalars suffice for the dispatcher itself. -/
inductive JVal where
  | str (s : String)
  | num (n : Int)
  | jnull
deriving DecidableEq, Repr

/-- A Python exception, reduced to its class name (`kind`) and its message
(`reason`), which is all the dispatcher ever extracts from one
(`error.__class__.__name__` and `str(error)`). -/
structure PyErr where
  kind : String
  reason : String
deriving DecidableEq, Repr

/-- `KeyError(k)`: raised by a Python dict lookup on a missing key; its message
is the missing key. -/
def keyError (k : String) : PyErr := ⟨"KeyError", k⟩

/-- `TypeError`: raised e.g. by calling a constructor with unexpected or
missing keyword arguments. -/
def typeError (msg : String) : PyErr := ⟨"TypeError", msg⟩

/-- Lookup in a Python dict (modelled as an association list): first binding of
the key, if any. -/
def alistLookup {α : Type} : List (String × α) → String → Option α
  | [], _ => none
  | (k, v) :: rest, key => if k = key then some v else alistLookup rest key

/-- Python dict assignment `d[key] = v`: replaces the binding if the key is
present, otherwise appends it. -/
def alistInsert {α : Type} : List (String × α) → String → α → List (String × α)
  | [], key, v => [(key, v)]
  | (k, w) :: rest, key, v =>
      if k = key then (key, v) :: rest else (k, w) :: alistInsert rest key v

/-- Python dict deletion `del d[key]`.  Keys of a dict are unique, so removing
every binding of the key is the faithful translation. -/
def alistErase {α : Type} : List (String × α) → String → List (String × α)
  | [], _ => []
  | (k, w) :: rest, key =>
      if k = key then alistErase rest key else (k, w) :: alistErase rest key

/-- A `Request` as constructed by `Request(**obj)` in the run loop: caller
correlation `id`, `method` selector, `internal` addressing metadata and `data`
payload.  The ids carried in `internal` are strings (spec §3). -/
structure Request where
  id : Int
  method : String
  internal : List (String × String)
  data : List (String × JVal)
deriving DecidableEq, Repr

/-- A `Notification` as constructed by `Notification(**obj)`: like a `Request`
but correlation-free (`event` instead of `id`/`method`). -/
structure Notification where
  event : String
  internal : List (String × String)
  data : List (String × JVal)
deriving DecidableEq, Repr

/-- A parsed inbound JSON object as returned by `channel.receive()`, before it
is classified.  The recognised top-level fields are typed; `extra` records any
other top-level keys (which the `Request`/`Notification` constructors would
receive as unexpected keyword arguments). -/
structure Obj where
  id : Option Int := none
  method : Option String := none
  event : Option String := none
  internal : Option (List (String × String)) := none
  data : Option (List (String × JVal)) := none
  extra : List String := []
deriving DecidableEq, Repr

/-- Modelled from the spec: `channel.py` (the `Channel`/`Request` classes) is
not part of the analysed sources.  Per spec §3 a Request is
`{id, method, internal, data}`, so `Request(**obj)` accepts exactly those four
keyword arguments; any other key (including `event`), or a missing one, raises
a `TypeError`, as Python keyword binding does. -/
def mkRequest (o : Obj) : Except PyErr Request :=
  match o.extra, o.event, o.id, o.method, o.internal, o.data with
  | [], none, some i, some m, some intl, some d => .ok ⟨i, m, intl, d⟩
  | _, _, _, _, _, _ => .error (typeError "invalid arguments to Request")

/-- Modelled from the spec: per spec §3 a Notification is
`{event, internal, data}` and carries no id, so `Notification(**obj)` accepts
exactly those three keyword arguments and raises a `TypeError` otherwise. -/
def mkNotification (o : Obj) : Except PyErr Notification :=
  match o.extra, o.id, o.method, o.event, o.internal, o.data with
  | [], none, none, some ev, some intl, some d => .ok ⟨ev, intl, d⟩
  | _, _, _, _, _, _ => .error (typeError "invalid arguments to Notification")

/-- A media track of a `MediaPlayer` (external aiortc object): an identity and
whether `stop()` has been called on it. -/
structure Track where
  tid : Nat
  stopped : Bool
deriving DecidableEq, Repr

/-- `track.stop()`. -/
def Track.stop (t : Track) : Track := { t with stopped := true }

/-- A `MediaPlayer`: optional `audio` and `video` track handles, each
independently stoppable. -/
structure Player where
  audio : Option Track
  video : Option Track
deriving DecidableEq, Repr

/-- The worker's mutable state: the two registries declared at start-up
(`handlers: Dict[str, Handler]`, `players: Dict[str, MediaPlayer]`).  A
`Handler` is an external aiortc-backed object; each call of its constructor
yields a distinct object, modelled by the fresh token `nextHandlerToken`. -/
structure WorkerState where
  handlers : List (String × Nat) := []
  players : List (String × Player) := []
  nextHandlerToken : Nat := 0
deriving DecidableEq, Repr

/-- The environment of external collaborators: the process id and the offer
SDP produced by the transient `RTCPeerConnection`, plus the behaviour of the
delegated capability calls on `Handler` objects (identified by token) and of
the `MediaPlayer` constructor. -/
structure Env where
  pid : String
  offerSdp : String
  handlerRequest : Nat → Request → Except PyErr JVal
  handlerNotification : Nat → Notification → Except PyErr Unit
  handlerClose : Nat → Except PyErr Unit
  mediaPlayer : JVal → Option JVal → Option JVal → Except PyErr Player

/-- Whether the character list `pat` is an initial segment of `s`. -/
def hasPre : List Char → List Char → Bool
  | [], _ => true
  | _ :: _, [] => false
  | p :: ps, c :: cs => p = c && hasPre ps cs

/-- Whether the character list `pat` occurs contiguously in `s` (the Python
substring test `pat in s`). -/
def hasSub (pat : List Char) : List Char → Bool
  | [] => hasPre pat []
  | c :: cs => hasPre pat (c :: cs) || hasSub pat cs

/-- The ICE-configuration parsing of the `createHandler` branch
(`jsonRtcConfiguration = data.get("rtcConfiguration")` followed by
`if jsonRtcConfiguration and "iceServers" in jsonRtcConfiguration`): the
configuration it builds only parameterises the external `Handler` object, but
the parsing itself can raise, which fails the request before the registry
insert.  On the scalar payloads of `JVal`: a missing, `None` or falsy value
skips configuration; on a truthy number the membership test
`"iceServers" in jsonRtcConfiguration` raises a `TypeError`; on a truthy
string the membership test is a substring test, and when it succeeds the
subsequent indexing `jsonRtcConfiguration["iceServers"]` raises a
`TypeError`. -/
def parseRtcConfiguration (data : List (String × JVal)) : Except PyErr Unit :=
  match alistLookup data "rtcConfiguration" with
  | none => .ok ()
  | some JVal.jnull => .ok ()
  | some (JVal.num n) =>
      if n = 0 then .ok ()
      else .error (typeError "argument of type 'int' is not iterable")
  | some (JVal.str conf) =>
      if conf = "" then .ok ()
      else if hasSub "iceServers".toList conf.toList then
        .error (typeError "string indices must be integers")
      else .ok ()

/-- `processRequest(request)` from `worker.py`: the four-way dispatch on
`request.method`.  Returns the Python result (or the raised exception) and the
worker state at exit. -/
def processRequest (env : Env) (s : WorkerState) (request : Request) :
    Except PyErr JVal × WorkerState :=
  if request.method = "createHandler" then
    match alistLookup request.internal "handlerId" with
    | none => (.error (keyError "handlerId"), s)
    | some handlerId =>
        match parseRtcConfiguration request.data with
        | .error e => (.error e, s)
        | .ok _ =>
            -- handler = Handler(handlerId, channel, loop, getTrack, rtcConfiguration)
            -- handlers[handlerId] = handler  (dict assignment: overwrites)
            (.ok JVal.jnull,
             { s with handlers := alistInsert s.handlers handlerId s.nextHandlerToken,
                      nextHandlerToken := s.nextHandlerToken + 1 })
  else if request.method = "createPlayer" then
    match alistLookup request.internal "playerId" with
    | none => (.error (keyError "playerId"), s)
    | some playerId =>
        match alistLookup request.data "file" with
        | none => (.error (keyError "file"), s)
        | some file =>
            let format := alistLookup request.data "format"
            let options := alistLookup request.data "options"
            match env.mediaPlayer file format options with
            | .error e => (.error e, s)
            | .ok player =>
                (.ok JVal.jnull,
                 { s with players := alistInsert s.players playerId player })
  else if request.method = "getRtpCapabilities" then
    -- transient RTCPeerConnection: addTransceiver twice, createOffer, close;
    -- nothing is inserted into any registry
    (.ok (JVal.str env.offerSdp), s)
  else
    match alistLookup request.internal "handlerId" with
    | none => (.error (keyError "handlerId"), s)
    | some handlerId =>
        match alistLookup s.handlers handlerId with
        | none => (.error (keyError handlerId), s)
        | some h => (env.handlerRequest h request, s)

/-- An observable capability call performed while processing a notification. -/
inductive CapCall where
  | handlerClose (h : Nat)
  | handlerNotify (h : Nat)
  | trackStop (playerId : String) (kind : String)
deriving DecidableEq, Repr

/-- `processNotification(notification)` from `worker.py`: the four-way dispatch
on `notification.event`.  Returns the outcome (or raised exception), the
capability calls performed, and the worker state at exit.  In the
`handler.close` branch the `del handlers[handlerId]` is sequenced after
`handler.close()`, so a raising `close()` leaves the registry untouched. -/
def processNotification (env : Env) (s : WorkerState) (notification : Notification) :
    Except PyErr Unit × List CapCall × WorkerState :=
  if notification.event = "handler.close" then
    match alistLookup notification.internal "handlerId" with
    | none => (.error (keyError "handlerId"), [], s)
    | some handlerId =>
        match alistLookup s.handlers handlerId with
        | none => (.error (keyError handlerId), [], s)
        | some h =>
            match env.handlerClose h with
            | .error e => (.error e, [CapCall.handlerClose h], s)
            | .ok _ =>
                (.ok (), [CapCall.handlerClose h],
                 { s with handlers := alistErase s.handlers handlerId })
  else if notification.event = "player.close" then
    match alistLookup notification.internal "playerId" with
    | none => (.error (keyError "playerId"), [], s)
    | some playerId =>
        match alistLookup s.players playerId with
        | none => (.error (keyError playerId), [], s)
        | some player =>
            ((.ok (),
              (if player.audio.isSome then [CapCall.trackStop playerId "audio"] else []) ++
              (if player.video.isSome then [CapCall.trackStop playerId "video"] else []),
              { s with players := alistErase s.players playerId }))
  else if notification.event = "player.stopTrack" then
    match alistLookup notification.internal "playerId" with
    | none => (.error (keyError "playerId"), [], s)
    | some playerId =>
        match alistLookup s.players playerId with
        | none => (.error (keyError playerId), [], s)
        | some player =>
            match alistLookup notification.data "kind" with
            | none => (.error (keyError "kind"), [], s)
            | some kind =>
                if kind = JVal.str "audio" ∧ player.audio.isSome then
                  (.ok (), [CapCall.trackStop playerId "audio"],
                   { s with players := (alistInsert s.players playerId
                       { player with audio := player.audio.map Track.stop }) })
                else if kind = JVal.str "video" ∧ player.video.isSome then
                  (.ok (), [CapCall.trackStop playerId "video"],
                   { s with players := (alistInsert s.players playerId
                       { player with video := player.video.map Track.stop }) })
                else (.ok (), [], s)
  else
    match alistLookup notification.internal "handlerId" with
    | none => (.error (keyError "handlerId"), [], s)
    | some handlerId =>
        match alistLookup s.handlers handlerId with
        | none => (.error (keyError handlerId), [], s)
        | some h => (env.handlerNotification h notification, [CapCall.handlerNotify h], s)

/-- One call of `channel.receive()` in the run loop: a parsed message, a `None`
return (malformed frame, dropped), or a raised exception (transport failure). -/
inductive RxEvent where
  | msg (o : Obj)
  | skip
  | err
deriving DecidableEq, Repr

/-- An observable channel-output event of the run loop: the start-up
notification, the receipt of a parsed message, or a Response sent by
`request.succeed` / `request.failed`.  Modelled from the spec: `succeed` and
`failed` live in `channel.py` and, per spec §4.2, send the one matching
Response (`accepted` on success, `{error: kind, reason: message}` on failure);
they are fire-and-forget sends. -/
inductive Ev where
  | notify (target : String) (event : String)
  | recv
  | respOk (id : Int) (v : JVal)
  | respErr (id : Int) (error : String) (reason : String)
deriving DecidableEq, Repr

/-- Whether an event is a Response (a terminal completion of a Request). -/
def Ev.isResp : Ev → Bool
  | .respOk _ _ => true
  | .respErr _ _ _ => true
  | _ => false

/-- Whether an event is the receipt of a message. -/
def Ev.isRecv : Ev → Bool
  | .recv => true
  | _ => false

/-- Whether an event is an outbound Notification send. -/
def Ev.isNotifySend : Ev → Bool
  | .notify _ _ => true
  | _ => false

/-- The body of the run loop for one successfully received message `obj`:
classification by presence of a `method`/`event` key, construction of the
typed message, processing, and completion.  Returns the emitted events, the
new state, and whether the uncaught exception path was taken (an exception
outside the inner `try`, i.e. in `Request(**obj)`/`Notification(**obj)`,
reaches the outer `except` and breaks the loop). -/
def handleMsg (env : Env) (s : WorkerState) (o : Obj) : List Ev × WorkerState × Bool :=
  if o.method.isSome then
    match mkRequest o with
    | .error _ => ([], s, true)
    | .ok request =>
        match processRequest env s request with
        | (.ok v, s') => ([Ev.respOk request.id v], s', false)
        | (.error e, s') => ([Ev.respErr request.id e.kind e.reason], s', false)
  else if o.event.isSome then
    match mkNotification o with
    | .error _ => ([], s, true)
    | .ok notification =>
        match processNotification env s notification with
        | (_, _, s') => ([], s', false)
  else
    ([], s, false)

/-- The `while True` loop of `run(channel)`, driven by the sequence of
`channel.receive()` outcomes.  A transport failure (`RxEvent.err`) or an
uncaught per-message exception breaks the loop; otherwise the next message is
received only after the current one has been handled to completion (the loop
awaits `processRequest`/`processNotification` inline). -/
def runLoop (env : Env) (s : WorkerState) : List RxEvent → List Ev × WorkerState
  | [] => ([], s)
  | RxEvent.err :: _ => ([], s)
  | RxEvent.skip :: rest => runLoop env s rest
  | RxEvent.msg o :: rest =>
      match handleMsg env s o with
      | (evs, s', true) => (Ev.recv :: evs, s')
      | (evs, s', false) =>
          let r := runLoop env s' rest
          (Ev.recv :: (evs ++ r.1), r.2)

/-- `run(channel)` from `worker.py`: sends the `"running"` notification with
the process id, then enters the receive loop on the initial (empty)
registries. -/
def run (env : Env) (events : List RxEvent) : List Ev × WorkerState :=
  let r := runLoop env {} events
  (Ev.notify env.pid "running" :: r.1, r.2)

/-- Index of the first event satisfying `p` (the trace length if none). -/
def firstIdxP (p : Ev → Bool) : List Ev → Nat
  | [] => 0
  | e :: rest => if p e then 0 else firstIdxP p rest + 1

/-- Index of the `n`-th (0-based) `recv` event (at least the trace length if
there is no such event). -/
def nthRecvIdx : List Ev → Nat → Nat
  | [], _ => 0
  | e :: rest, n =>
      if e.isRecv then
        match n with
        | 0 => 0
        | m + 1 => nthRecvIdx rest m + 1
      else nthRecvIdx rest n + 1

/-- A trace that strictly alternates between receiving a message and sending
its Response: the shape the run loop produces on well-formed request input. -/
def alternatesRR : List Ev → Bool
  | [] => true
  | Ev.recv :: e :: rest => e.isResp && alternatesRR rest
  | _ => false

/-- An `Obj` that classifies as a Request and constructs successfully. -/
def reqObj (i : Int) (m : String) (intl : List (String × String))
    (d : List (String × JVal)) : Obj :=
  { id := some i, method := some m, internal := some intl, data := some d }

/-- An `Obj` that classifies as a Notification and constructs successfully. -/
def notifObj (ev : String) (intl : List (String × String))
    (d : List (String × JVal)) : Obj :=
  { event := some ev, internal := some intl, data := some d }

/-- Whether classification of `o` would construct its typed message without
raising (vacuously true for ignored objects with neither key). -/
def constructionOk (o : Obj) : Bool :=
  if o.method.isSome then
    match mkRequest o with
    | .ok _ => true
    | .error _ => false
  else if o.event.isSome then
    match mkNotification o with
    | .ok _ => true
    | .error _ => false
  else true

/-- A concrete environment for witnesses and counterexamples. -/
def env0 : Env :=
  { pid := "7"
    offerSdp := "v=0 m=audio 9 m=video 9"
    handlerRequest := fun h _ => .ok (JVal.num (Int.ofNat h))
    handlerNotification := fun _ _ => .ok ()
    handlerClose := fun _ => .ok ()
    mediaPlayer := fun _ _ _ =>
      .ok { audio := some ⟨0, false⟩, video := some ⟨1, false⟩ } }

/-- A concrete `getRtpCapabilities` request, id 1. -/
def oCaps1 : Obj := reqObj 1 "getRtpCapabilities" [] []

/-- A concrete `getRtpCapabilities` request, id 2. -/
def oCaps2 : Obj := reqObj 2 "getRtpCapabilities" [] []

/-- The trace of a run over two back-to-back well-formed requests. -/
def seqTrace : List Ev := (run env0 [RxEvent.msg oCaps1, RxEvent.msg oCaps2]).1

/-- Whether an `Except` value is a success. -/
def isOkB {e a : Type} : Except e a → Bool
  | .ok _ => true
  | .error _ => false

/-- Whether `o` classifies as a Request and its `Request` object constructs
successfully. -/
def goodReq (o : Obj) : Bool := o.method.isSome && isOkB (mkRequest o)

theorem alistLookup_insert_self {α : Type} (l : List (String × α)) (k : String) (v : α) :
    alistLookup (alistInsert l k v) k = some v := by
  induction l with
  | nil => simp [alistInsert, alistLookup]
  | cons p rest ih =>
      obtain ⟨k', w⟩ := p
      by_cases h : k' = k
      · simp [alistInsert, alistLookup, h]
      · simp [alistInsert, alistLookup, h, ih]

theorem alistLookup_erase_self {α : Type} (l : List (String × α)) (k : String) :
    alistLookup (alistErase l k) k = none := by
  induction l with
  | nil => simp [alistErase, alistLookup]
  | cons p rest ih =>
      obtain ⟨k', w⟩ := p
      by_cases h : k' = k
      · simp [alistErase, h, ih]
      · simp [alistErase, alistLookup, h, ih]

/-- Claim C1: every inbound message classified as a Request (a `method` key is
present) whose `Request` object constructs successfully receives exactly one
terminal completion from the run-loop body: the single `succeed` Response when
`processRequest` returns normally, or the single `failed` Response carrying
the exception's class name and message when it raises — never zero, never
two. -/
theorem C1_request_exactly_one_completion (env : Env) (s : WorkerState) (o : Obj)
    (request : Request) (hm : o.method.isSome = true) (hreq : mkRequest o = .ok request) :
    (handleMsg env s o).1.filter Ev.isResp =
      (match (processRequest env s request).1 with
       | .ok v => [Ev.respOk request.id v]
       | .error e => [Ev.respErr request.id e.kind e.reason]) := by
  unfold handleMsg
  rcases hpr : processRequest env s request with ⟨r, s'⟩
  simp only [hm, if_true, hreq]
  cases r <;> simp [hpr, Ev.isResp, List.filter]

theorem C1_witness :
    (Obj.method oCaps1).isSome = true ∧
    mkRequest oCaps1 = .ok ⟨1, "getRtpCapabilities", [], []⟩ ∧
    (handleMsg env0 {} oCaps1).1.filter Ev.isResp =
      (match (processRequest env0 {} ⟨1, "getRtpCapabilities", [], []⟩).1 with
       | .ok v => [Ev.respOk 1 v]
       | .error e => [Ev.respErr 1 e.kind e.reason]) :=
  ⟨by decide, by rfl,
   C1_request_exactly_one_completion env0 {} oCaps1 ⟨1, "getRtpCapabilities", [], []⟩
     (by decide) (by rfl)⟩

/-- A concrete worker state with one live handler `"h1"` (object token 5). -/
def sH : WorkerState := { handlers := [("h1", 5)], players := [], nextHandlerToken := 6 }

/-- Claim C7: a `getRtpCapabilities` request returns the generated offer's
session-description string and leaves the worker state — both registries —
exactly as it was: the negotiation object is transient and nothing is
inserted anywhere. -/
theorem C7_getRtpCapabilities_transient (env : Env) (s : WorkerState) (request : Request)
    (h : request.method = "getRtpCapabilities") :
    processRequest env s request = (.ok (JVal.str env.offerSdp), s) := by
  unfold processRequest
  simp [h]

theorem C7_witness :
    processRequest env0 sH ⟨1, "getRtpCapabilities", [], []⟩ =
      (.ok (JVal.str "v=0 m=audio 9 m=video 9"), sH) :=
  C7_getRtpCapabilities_transient env0 sH ⟨1, "getRtpCapabilities", [], []⟩ rfl

/-- Claim C4: a Request whose method is none of `createHandler`,
`createPlayer`, `getRtpCapabilities` is resolved against the handlers
registry through `internal.handlerId`: if no live handler carries that id the
request fails with a `KeyError` whose reason is the missing id, and if one
does, the request is delegated to its `processRequest` with the result or
error passed through unchanged (and the registries untouched). -/
theorem C4_delegated_request_lookup (env : Env) (s : WorkerState) (request : Request)
    (hid : String)
    (h1 : request.method ≠ "createHandler") (h2 : request.method ≠ "createPlayer")
    (h3 : request.method ≠ "getRtpCapabilities")
    (hi : alistLookup request.internal "handlerId" = some hid) :
    (alistLookup s.handlers hid = none →
       processRequest env s request = (.error (keyError hid), s)) ∧
    (∀ h : Nat, alistLookup s.handlers hid = some h →
       processRequest env s request = (env.handlerRequest h request, s)) := by
  constructor
  · intro hnone
    unfold processRequest
    simp [h1, h2, h3, hi, hnone]
  · intro h hsome
    unfold processRequest
    simp [h1, h2, h3, hi, hsome]

theorem C4_witness :
    processRequest env0 sH ⟨3, "anything", [("handlerId", "ghost")], []⟩ =
      (.error (keyError "ghost"), sH) ∧
    processRequest env0 sH ⟨2, "anything", [("handlerId", "h1")], []⟩ =
      (Env.handlerRequest env0 5 ⟨2, "anything", [("handlerId", "h1")], []⟩, sH) :=
  ⟨(C4_delegated_request_lookup env0 sH ⟨3, "anything", [("handlerId", "ghost")], []⟩
      "ghost" (by decide) (by decide) (by decide) (by rfl)).1 (by rfl),
   (C4_delegated_request_lookup env0 sH ⟨2, "anything", [("handlerId", "h1")], []⟩
      "h1" (by decide) (by decide) (by decide) (by rfl)).2 5 (by rfl)⟩

/-- Claim C5: processing a `handler.close` notification for a live handlerId
(whose `close()` returns normally) invokes that handler's `close()` and
removes the entry from the handlers registry, after which any request
addressed to that handlerId fails with a `KeyError` lookup error. -/
theorem C5_handler_close_removes (env : Env) (s : WorkerState) (n : Notification)
    (hid : String) (h : Nat)
    (he : n.event = "handler.close")
    (hi : alistLookup n.internal "handlerId" = some hid)
    (hh : alistLookup s.handlers hid = some h)
    (hc : env.handlerClose h = .ok ()) :
    processNotification env s n =
      (.ok (), [CapCall.handlerClose h], { s with handlers := alistErase s.handlers hid }) ∧
    alistLookup (alistErase s.handlers hid) hid = none ∧
    (∀ request : Request,
       request.method ≠ "createHandler" → request.method ≠ "createPlayer" →
       request.method ≠ "getRtpCapabilities" →
       alistLookup request.internal "handlerId" = some hid →
       processRequest env { s with handlers := alistErase s.handlers hid } request =
         (.error (keyError hid), { s with handlers := alistErase s.handlers hid })) := by
  refine ⟨?_, alistLookup_erase_self _ _, ?_⟩
  · unfold processNotification
    simp [he, hi, hh, hc]
  · intro request h1 h2 h3 hi2
    unfold processRequest
    simp [h1, h2, h3, hi2, alistLookup_erase_self]

theorem C5_witness :
    processNotification env0 sH ⟨"handler.close", [("handlerId", "h1")], []⟩ =
      (.ok (), [CapCall.handlerClose 5],
       { sH with handlers := alistErase sH.handlers "h1" }) ∧
    alistLookup (alistErase sH.handlers "h1") "h1" = none ∧
    processRequest env0 { sH with handlers := alistErase sH.handlers "h1" }
        ⟨9, "anything", [("handlerId", "h1")], []⟩ =
      (.error (keyError "h1"), { sH with handlers := alistErase sH.handlers "h1" }) :=
  have hmain := C5_handler_close_removes env0 sH
    ⟨"handler.close", [("handlerId", "h1")], []⟩ "h1" 5 rfl rfl rfl rfl
  ⟨hmain.1, hmain.2.1,
   hmain.2.2 ⟨9, "anything", [("handlerId", "h1")], []⟩
     (by decide) (by decide) (by decide) rfl⟩

/-- Claim C10 (implicit): when a `handler.close` notification targets a live
handlerId but the handler's `close()` raises, the registry entry is NOT
removed (`del handlers[handlerId]` is sequenced after a successful
`close()`): the state is unchanged, the entry remains addressable by later
delegated requests, and a later `handler.close` whose `close()` succeeds does
remove it. -/
theorem C10_close_failure_keeps_entry (env : Env) (s : WorkerState) (n : Notification)
    (hid : String) (h : Nat) (e : PyErr)
    (he : n.event = "handler.close")
    (hi : alistLookup n.internal "handlerId" = some hid)
    (hh : alistLookup s.handlers hid = some h)
    (hc : env.handlerClose h = .error e) :
    processNotification env s n = (.error e, [CapCall.handlerClose h], s) ∧
    (∀ request : Request,
       request.method ≠ "createHandler" → request.method ≠ "createPlayer" →
       request.method ≠ "getRtpCapabilities" →
       alistLookup request.internal "handlerId" = some hid →
       processRequest env s request = (env.handlerRequest h request, s)) ∧
    (∀ envB : Env, envB.handlerClose h = .ok () →
       processNotification envB s n =
         (.ok (), [CapCall.handlerClose h],
          { s with handlers := alistErase s.handlers hid })) := by
  refine ⟨?_, ?_, ?_⟩
  · unfold processNotification
    simp [he, hi, hh, hc]
  · intro request h1 h2 h3 hi2
    unfold processRequest
    simp [h1, h2, h3, hi2, hh]
  · intro envB hc2
    unfold processNotification
    simp [he, hi, hh, hc2]

/-- An environment whose handler `close()` always raises. -/
def envFail : Env := { env0 with handlerClose := fun _ => .error ⟨"Exception", "boom"⟩ }

theorem C10_witness :
    processNotification envFail sH ⟨"handler.close", [("handlerId", "h1")], []⟩ =
      (.error ⟨"Exception", "boom"⟩, [CapCall.handlerClose 5], sH) ∧
    processRequest envFail sH ⟨9, "anything", [("handlerId", "h1")], []⟩ =
      (Env.handlerRequest envFail 5 ⟨9, "anything", [("handlerId", "h1")], []⟩, sH) ∧
    processNotification env0 sH ⟨"handler.close", [("handlerId", "h1")], []⟩ =
      (.ok (), [CapCall.handlerClose 5],
       { sH with handlers := alistErase sH.handlers "h1" }) :=
  have hmain := C10_close_failure_keeps_entry envFail sH
    ⟨"handler.close", [("handlerId", "h1")], []⟩ "h1" 5 ⟨"Exception", "boom"⟩ rfl rfl rfl rfl
  ⟨hmain.1,
   hmain.2.1 ⟨9, "anything", [("handlerId", "h1")], []⟩
     (by decide) (by decide) (by decide) rfl,
   hmain.2.2 env0 rfl⟩

/-- Claim C8: a `player.stopTrack` notification for a live playerId with
`data.kind = "audio"` stops only the audio track — the stored entry keeps its
video track unchanged — and the player stays in the players registry, so a
subsequent `player.stopTrack` with `kind = "video"` on the same playerId
still succeeds and stops the video track. -/
theorem C8_stopTrack_only_named_kind (env : Env) (s : WorkerState) (n : Notification)
    (pid : String) (player : Player) (ta : Track)
    (he : n.event = "player.stopTrack")
    (hi : alistLookup n.internal "playerId" = some pid)
    (hp : alistLookup s.players pid = some player)
    (hk : alistLookup n.data "kind" = some (JVal.str "audio"))
    (ha : player.audio = some ta) :
    processNotification env s n =
      (.ok (), [CapCall.trackStop pid "audio"],
       { s with players := (alistInsert s.players pid
           { audio := some (Track.stop ta), video := player.video }) }) ∧
    alistLookup (alistInsert s.players pid
        { audio := some (Track.stop ta), video := player.video }) pid =
      some { audio := some (Track.stop ta), video := player.video } ∧
    (∀ (m : Notification) (tv : Track),
       m.event = "player.stopTrack" →
       alistLookup m.internal "playerId" = some pid →
       alistLookup m.data "kind" = some (JVal.str "video") →
       player.video = some tv →
       processNotification env
           { s with players := (alistInsert s.players pid
               { audio := some (Track.stop ta), video := player.video }) } m =
         (.ok (), [CapCall.trackStop pid "video"],
          { s with players := (alistInsert (alistInsert s.players pid
              { audio := some (Track.stop ta), video := player.video }) pid
              { audio := some (Track.stop ta), video := some (Track.stop tv) }) })) := by
  refine ⟨?_, alistLookup_insert_self _ _ _, ?_⟩
  · unfold processNotification
    simp [he, hi, hp, hk, ha]
  · intro m tv hme hmi hmk hv
    unfold processNotification
    simp [hme, hmi, hmk, alistLookup_insert_self, hv]

/-- A concrete worker state with one live player `"p1"` owning a fresh audio
track (id 0) and a fresh video track (id 1). -/
def sP : WorkerState :=
  { handlers := [], nextHandlerToken := 0,
    players := [("p1", { audio := some ⟨0, false⟩, video := some ⟨1, false⟩ })] }

theorem C8_witness :
    processNotification env0 sP
        ⟨"player.stopTrack", [("playerId", "p1")], [("kind", JVal.str "audio")]⟩ =
      (.ok (), [CapCall.trackStop "p1" "audio"],
       { sP with players := (alistInsert sP.players "p1"
           { audio := some ⟨0, true⟩, video := some ⟨1, false⟩ }) }) ∧
    alistLookup (alistInsert sP.players "p1"
        { audio := some ⟨0, true⟩, video := some ⟨1, false⟩ }) "p1" =
      some { audio := some ⟨0, true⟩, video := some ⟨1, false⟩ } ∧
    processNotification env0
        { sP with players := (alistInsert sP.players "p1"
            { audio := some ⟨0, true⟩, video := some ⟨1, false⟩ }) }
        ⟨"player.stopTrack", [("playerId", "p1")], [("kind", JVal.str "video")]⟩ =
      (.ok (), [CapCall.trackStop "p1" "video"],
       { sP with players := (alistInsert (alistInsert sP.players "p1"
           { audio := some ⟨0, true⟩, video := some ⟨1, false⟩ }) "p1"
           { audio := some ⟨0, true⟩, video := some ⟨1, true⟩ }) }) :=
  have hmain := C8_stopTrack_only_named_kind env0 sP
    ⟨"player.stopTrack", [("playerId", "p1")], [("kind", JVal.str "audio")]⟩
    "p1" { audio := some ⟨0, false⟩, video := some ⟨1, false⟩ } ⟨0, false⟩
    rfl rfl rfl rfl rfl
  ⟨hmain.1, hmain.2.1,
   hmain.2.2 ⟨"player.stopTrack", [("playerId", "p1")], [("kind", JVal.str "video")]⟩
     ⟨1, false⟩ rfl rfl rfl rfl⟩

/-- Claim C2, counterexample: on two back-to-back well-formed requests the run
loop completes the first request strictly before it receives the second
message — the trace is `notify, recv, response 1, recv, response 2` — so the
loop does await a unit's completion before reading the next frame, contrary
to the claimed concurrent dispatch. -/
theorem C2_counterexample :
    seqTrace =
      [Ev.notify "7" "running", Ev.recv, Ev.respOk 1 (JVal.str "v=0 m=audio 9 m=video 9"),
       Ev.recv, Ev.respOk 2 (JVal.str "v=0 m=audio 9 m=video 9")] ∧
    firstIdxP Ev.isResp seqTrace < nthRecvIdx seqTrace 1 ∧
    nthRecvIdx seqTrace 1 < seqTrace.length := by decide

/-- Claim C2, amended: dispatch is sequential, not concurrent.  On any input
consisting of well-formed Requests the loop's trace strictly alternates
`recv`, `response`: each request's terminal completion is emitted before the
next frame is read, so completions occur in arrival order and a slow
`processRequest` delays all subsequent receipts. -/
theorem C2_amended_sequential_dispatch (env : Env) (s : WorkerState) (objs : List Obj)
    (hgood : ∀ o ∈ objs, goodReq o = true) :
    alternatesRR (runLoop env s (objs.map RxEvent.msg)).1 = true := by
  induction objs generalizing s with
  | nil => simp [runLoop, alternatesRR]
  | cons o rest ih =>
      have ho := hgood o (List.mem_cons_self o rest)
      have hrest : ∀ o2 ∈ rest, goodReq o2 = true :=
        fun o2 h2 => hgood o2 (List.mem_cons_of_mem o h2)
      simp only [goodReq, Bool.and_eq_true] at ho
      obtain ⟨hm, hok⟩ := ho
      cases hr : mkRequest o with
      | error e1 => rw [hr] at hok; simp [isOkB] at hok
      | ok r =>
          rcases hpr : processRequest env s r with ⟨res, s2⟩
          have hh : handleMsg env s o =
              (match res with
               | .ok v => ([Ev.respOk r.id v], s2, false)
               | .error e => ([Ev.respErr r.id e.kind e.reason], s2, false)) := by
            unfold handleMsg
            cases res <;> simp [hm, hr, hpr]
          cases res with
          | ok v =>
              simp only [List.map_cons]
              simp [runLoop, hh, alternatesRR, Ev.isResp, ih s2 hrest]
          | error e =>
              simp only [List.map_cons]
              simp [runLoop, hh, alternatesRR, Ev.isResp, ih s2 hrest]

theorem C2_amended_witness :
    alternatesRR (runLoop env0 {} ([oCaps1, oCaps2].map RxEvent.msg)).1 = true :=
  C2_amended_sequential_dispatch env0 {} [oCaps1, oCaps2] (by decide)

/-- If the typed message constructs successfully, the loop body never takes
the uncaught-exception path: failures inside
`processRequest`/`processNotification` are caught by the inner `try`. -/
theorem handleMsg_no_break (env : Env) (s : WorkerState) (o : Obj)
    (hok : constructionOk o = true) : (handleMsg env s o).2.2 = false := by
  unfold constructionOk at hok
  unfold handleMsg
  by_cases hm : o.method.isSome = true
  · simp only [hm, if_true] at hok ⊢
    cases hr : mkRequest o with
    | error e1 => rw [hr] at hok; simp at hok
    | ok r =>
        rcases hpr : processRequest env s r with ⟨res, s2⟩
        cases res <;> simp [hr, hpr]
  · by_cases hev : o.event.isSome = true
    · simp only [hm, hev, if_false, if_true, Bool.false_eq_true] at hok ⊢
      cases hr : mkNotification o with
      | error e1 => rw [hr] at hok; simp at hok
      | ok n =>
          rcases hpn : processNotification env s n with ⟨res, cs, s2⟩
          simp [hr, hpn]
    · simp [hm, hev]

/-- A concrete inbound object carrying both a `method` and an `event` key: its
`Request(**obj)` construction raises a `TypeError` (`event` is not a
parameter of `Request`). -/
def oBad : Obj :=
  { id := some 3, method := some "x", event := some "boom",
    internal := some [], data := some [] }

/-- Claim C3, counterexample: a message whose `Request` construction raises is
NOT contained — the loop breaks.  After receiving `oBad` the run ends without
reading or processing the following well-formed request, although that same
request alone would have been answered. -/
theorem C3_counterexample :
    (run env0 [RxEvent.msg oBad, RxEvent.msg oCaps2]).1 =
      [Ev.notify "7" "running", Ev.recv] ∧
    (run env0 [RxEvent.msg oCaps2]).1 =
      [Ev.notify "7" "running", Ev.recv,
       Ev.respOk 2 (JVal.str "v=0 m=audio 9 m=video 9")] := by decide

/-- Claim C3, amended: exceptions raised inside
`processRequest`/`processNotification` are contained by the inner `try` and
the loop goes on to the next message, whatever the processing outcome; but an
exception while constructing the `Request`/`Notification` object escapes to
the outer handler and terminates the loop, as does a failing
`channel.receive()`. -/
theorem C3_amended_containment (env : Env) (s : WorkerState) (o : Obj)
    (rest : List RxEvent) (hok : constructionOk o = true) :
    (runLoop env s (RxEvent.msg o :: rest)).1 =
      Ev.recv :: ((handleMsg env s o).1 ++
        (runLoop env (handleMsg env s o).2.1 rest).1) ∧
    runLoop env s (RxEvent.err :: rest) = ([], s) := by
  constructor
  · have hbr := handleMsg_no_break env s o hok
    rcases hh : handleMsg env s o with ⟨evs, s2, br⟩
    rw [hh] at hbr
    simp only at hbr
    subst hbr
    simp [runLoop, hh]
  · rfl

theorem C3_witness :
    (runLoop env0 {} (RxEvent.msg oCaps1 :: [RxEvent.msg oCaps2])).1 =
      Ev.recv :: ((handleMsg env0 {} oCaps1).1 ++
        (runLoop env0 (handleMsg env0 {} oCaps1).2.1 [RxEvent.msg oCaps2]).1) ∧
    runLoop env0 {} (RxEvent.err :: [RxEvent.msg oCaps2]) = ([], {}) :=
  C3_amended_containment env0 {} oCaps1 [RxEvent.msg oCaps2] (by decide)

/-- A first `createHandler` request for `"h1"`, id 1. -/
def oCreateA : Obj := reqObj 1 "createHandler" [("handlerId", "h1")] []

/-- A second `createHandler` request for the same id `"h1"`, id 2. -/
def oCreateB : Obj := reqObj 2 "createHandler" [("handlerId", "h1")] []

/-- The state after creating handler `"h1"` once. -/
def stateOneCreate : WorkerState := (run env0 [RxEvent.msg oCreateA]).2

/-- The state after creating handler `"h1"` twice in a row. -/
def stateTwoCreates : WorkerState :=
  (run env0 [RxEvent.msg oCreateA, RxEvent.msg oCreateB]).2

/-- Claim C6, counterexample: while handler object 0 is live under `"h1"`, a
second `createHandler` for the same id rebinds `"h1"` to the freshly
constructed handler object 1 — dict assignment overwrites, so a live id IS
reused. -/
theorem C6_counterexample :
    alistLookup stateOneCreate.handlers "h1" = some 0 ∧
    alistLookup stateTwoCreates.handlers "h1" = some 1 ∧
    ¬ alistLookup stateTwoCreates.handlers "h1" = some 0 := by decide

/-- Claim C6, amended: whenever a `createHandler` request succeeds — its
`handlerId` is present and the ICE-configuration parsing of its payload does
not raise — it binds the id to the newly constructed handler whether or not
an entry with that id is live: the registry assignment overwrites, so after
the request the id denotes the new object, not the one originally created
under it (and when the parsing raises, the request fails with that error and
no binding changes).  Likewise a succeeding `createPlayer` binds its id to
the newly opened player. -/
theorem C6_amended_create_rebinds (env : Env) (s : WorkerState) (request : Request)
    (hid pid : String) :
    (request.method = "createHandler" →
     alistLookup request.internal "handlerId" = some hid →
     (parseRtcConfiguration request.data = .ok () →
      processRequest env s request =
        (.ok JVal.jnull,
         { s with handlers := alistInsert s.handlers hid s.nextHandlerToken,
                  nextHandlerToken := s.nextHandlerToken + 1 }) ∧
      alistLookup (alistInsert s.handlers hid s.nextHandlerToken) hid =
        some s.nextHandlerToken) ∧
     (∀ e : PyErr, parseRtcConfiguration request.data = .error e →
      processRequest env s request = (.error e, s))) ∧
    (request.method = "createPlayer" →
     alistLookup request.internal "playerId" = some pid →
     ∀ (f : JVal) (player : Player),
       alistLookup request.data "file" = some f →
       env.mediaPlayer f (alistLookup request.data "format")
         (alistLookup request.data "options") = .ok player →
       processRequest env s request =
         (.ok JVal.jnull, { s with players := alistInsert s.players pid player }) ∧
       alistLookup (alistInsert s.players pid player) pid = some player) := by
  constructor
  · intro hm hi
    constructor
    · intro hcfg
      refine ⟨?_, alistLookup_insert_self _ _ _⟩
      unfold processRequest
      simp [hm, hi, hcfg]
    · intro e hcfg
      unfold processRequest
      simp [hm, hi, hcfg]
  · intro hm hi f player hf hmp
    refine ⟨?_, alistLookup_insert_self _ _ _⟩
    unfold processRequest
    simp [hm, hi, hf, hmp]

theorem C6_witness :
    (processRequest env0 sH ⟨2, "createHandler", [("handlerId", "h1")], []⟩ =
       (.ok JVal.jnull,
        { sH with handlers := alistInsert sH.handlers "h1" 6, nextHandlerToken := 7 }) ∧
     alistLookup (alistInsert sH.handlers "h1" 6) "h1" = some 6) ∧
    processRequest env0 sH
        ⟨2, "createHandler", [("handlerId", "h1")], [("rtcConfiguration", JVal.num 1)]⟩ =
      (.error (typeError "argument of type 'int' is not iterable"), sH) ∧
    (processRequest env0 sP ⟨4, "createPlayer",
        [("playerId", "p1")], [("file", JVal.str "a.mp4")]⟩ =
       (.ok JVal.jnull,
        { sP with players := (alistInsert sP.players "p1"
            { audio := some ⟨0, false⟩, video := some ⟨1, false⟩ }) }) ∧
     alistLookup (alistInsert sP.players "p1"
         { audio := some ⟨0, false⟩, video := some ⟨1, false⟩ }) "p1" =
       some { audio := some ⟨0, false⟩, video := some ⟨1, false⟩ }) :=
  ⟨((C6_amended_create_rebinds env0 sH ⟨2, "createHandler", [("handlerId", "h1")], []⟩
      "h1" "p1").1 rfl rfl).1 rfl,
   ((C6_amended_create_rebinds env0 sH
      ⟨2, "createHandler", [("handlerId", "h1")], [("rtcConfiguration", JVal.num 1)]⟩
      "h1" "p1").1 rfl rfl).2
     (typeError "argument of type 'int' is not iterable") rfl,
   (C6_amended_create_rebinds env0 sP ⟨4, "createPlayer",
      [("playerId", "p1")], [("file", JVal.str "a.mp4")]⟩ "h1" "p1").2 rfl rfl
     (JVal.str "a.mp4") { audio := some ⟨0, false⟩, video := some ⟨1, false⟩ } rfl rfl⟩

/-- Every event the loop body emits for a message is a Response: the body
itself never sends a Notification. -/
theorem handleMsg_events_resp (env : Env) (s : WorkerState) (o : Obj) :
    ∀ e ∈ (handleMsg env s o).1, Ev.isResp e = true := by
  unfold handleMsg
  by_cases hm : o.method.isSome = true
  · cases hr : mkRequest o with
    | error e1 => simp [hm, hr]
    | ok r =>
        rcases hpr : processRequest env s r with ⟨res, s2⟩
        cases res <;> simp [hm, hr, hpr, Ev.isResp]
  · by_cases hev : o.event.isSome = true
    · cases hr : mkNotification o with
      | error e1 => simp [hm, hev, hr]
      | ok n =>
          rcases hpn : processNotification env s n with ⟨res, cs, s2⟩
          simp [hm, hev, hr, hpn]
    · simp [hm, hev]

/-- The receive loop itself sends no Notification: every `notify` in a run's
trace comes from before the loop was entered. -/
theorem runLoop_no_notify (env : Env) (s : WorkerState) (events : List RxEvent) :
    (runLoop env s events).1.countP Ev.isNotifySend = 0 := by
  induction events generalizing s with
  | nil => simp [runLoop]
  | cons ev rest ih =>
      cases ev with
      | err => simp [runLoop]
      | skip => simpa [runLoop] using ih s
      | msg o =>
          have hresp := handleMsg_events_resp env s o
          rcases hh : handleMsg env s o with ⟨evs, s2, br⟩
          rw [hh] at hresp
          have hevs : evs.countP Ev.isNotifySend = 0 := by
            rw [List.countP_eq_zero]
            intro e he
            have := hresp e he
            cases e <;> simp_all [Ev.isResp, Ev.isNotifySend]
          cases br <;>
            simp [runLoop, hh, List.countP_cons, List.countP_append,
              Ev.isNotifySend, hevs, ih s2]

/-- Claim C9: upon entering its run loop the worker sends exactly one
Notification — the `"running"` event targeted at the process id — and it is
the very first channel event of the run, before any inbound message is
received or processed. -/
theorem C9_running_handshake_first (env : Env) (events : List RxEvent) :
    (run env events).1.head? = some (Ev.notify env.pid "running") ∧
    (run env events).1.countP Ev.isNotifySend = 1 := by
  constructor
  · simp [run]
  · simp [run, List.countP_cons, Ev.isNotifySend, runLoop_no_notify]
